import Mathlib

/-
Shallow embedding of `classify-Y-del.py`, a Y-chromosomal microdeletion
classifier following the EAA/EMQN 2023 guidelines.  A marker panel is a
finite map from marker names to a present/absent status; missing keys mean
"not tested".  Python dictionary accesses that could raise `KeyError`
(the `ext_result['details'][...]` reads in the top-level classifier) are
modelled with `Option`: the classifier returns `none` exactly where the
Python code would throw.
-/

namespace YDel

/-- Marker status as stored in the panel dictionary: `'present'` or `'absent'`. -/
inductive Status : Type
  | present
  | absent
deriving DecidableEq, Repr

/-- A marker panel: the `Dict[str, str]` of marker statuses.  `none` models a
key that is not in the dictionary ("not tested"). -/
def Panel : Type := String → Option Status

/-- Build a panel from an association list (first binding wins, as the concrete
panels used below have distinct keys). -/
def panelOf : List (String × Status) → Panel
  | [] => fun _ => none
  | (k, v) :: rest => fun key => if k = key then some v else panelOf rest key

/-- Generic association-list lookup (models Python `dict` reads on the small
dictionaries built inside the functions below). -/
def alookup {α : Type} : List (String × α) → String → Option α
  | [], _ => none
  | (k, v) :: rest, key => if k = key then some v else alookup rest key

/-- Values stored in the `details` sub-dictionary of an extension-analysis
result: the source stores both strings and Python booleans there. -/
inductive PyVal : Type
  | s (v : String)
  | b (v : Bool)
deriving DecidableEq, Repr

/-- Rendering of a detail value inside an f-string (Python `str`). -/
def pyValStr : PyVal → String
  | .s v => v
  | .b true => "True"
  | .b false => "False"

/-- `BASIC_MARKERS`: basic analysis markers (first step), per AZF region. -/
def BASIC_MARKERS : List (String × List String) :=
  [("AZFa", ["sY84", "sY86"]),
   ("AZFb", ["sY127", "sY134"]),
   ("AZFc", ["sY254", "sY255"])]

/-- `EXPECTED_PRESENT_MARKERS`: markers that should be present in healthy
males. -/
def EXPECTED_PRESENT_MARKERS : List String :=
  ["sY14", "sY82", "sY88", "sY105", "sY153", "sY160", "sY1191", "ZFX/ZFY"]

/-- Resolution of the ZFX/ZFY control marker through its ZFX/Y alias.  The
source spells this twice: `markers.get('ZFX/ZFY') or markers.get('ZFX/Y')`
(line 135) and `markers.get('ZFX/ZFY', markers.get('ZFX/Y'))` (line 288);
since stored statuses are the non-empty strings 'present'/'absent' (truthy),
both coincide with this first-hit lookup. -/
def zfxy_lookup (m : Panel) : Option Status :=
  match m "ZFX/ZFY" with
  | some s => some s
  | none => m "ZFX/Y"

/-- `check_control_markers`: quality control on sY14/SRY and ZFX/ZFY. -/
def check_control_markers (m : Panel) : Bool × String :=
  match zfxy_lookup m with
  | none =>
      (false, "CRITICAL: ZFX/ZFY control marker not tested - cannot validate results")
  | some zfxy_status =>
      if zfxy_status ≠ Status.present then
        (false, "CRITICAL: ZFX/ZFY control marker absent - technical failure or sample issue")
      else
        match m "sY14" with
        | none =>
            (false, "CRITICAL: sY14 (SRY) marker not tested - cannot determine sex chromosome status")
        | some _ => (true, "Control markers valid")

/-- `check_basic_deletion`: all markers in the region's basic list must be
tested and absent for a deletion; an unknown region yields `false`. -/
def check_basic_deletion (m : Panel) (region : String) : Bool :=
  match alookup BASIC_MARKERS region with
  | none => false
  | some region_markers =>
      region_markers.all (fun marker => decide (m marker = some Status.absent))

/-- Result dictionary of `check_extension_markers`:
`{'complete': ..., 'subtype': ..., 'details': {...}}`. -/
structure ExtResult : Type where
  complete : Bool
  subtype : String
  details : List (String × PyVal)
deriving DecidableEq, Repr

/-- `check_extension_markers`: extension analysis for a confirmed deletion in
the given region. -/
def check_extension_markers (m : Panel) (region : String) : ExtResult :=
  if region = "AZFa" then
    let proximal : String :=
      if m "sY82" = some Status.present ∧ m "sY1064" = some Status.absent
      then "correct" else "atypical"
    let distal_absent : Prop :=
      m "sY1065" = some Status.absent ∨ m "sY1182" = some Status.absent
    let distal : String :=
      if m "sY88" = some Status.present ∧ distal_absent
      then "correct" else "atypical"
    if proximal = "correct" ∧ distal = "correct" then
      { complete := true, subtype := "complete",
        details := [("proximal", .s proximal), ("distal", .s distal)] }
    else
      { complete := false, subtype := "partial_or_atypical",
        details := [("proximal", .s proximal), ("distal", .s distal)] }
  else if region = "AZFb" then
    let has_sY1192 : Prop := m "sY1192" = some Status.present
    let base : ExtResult :=
      if m "sY105" = some Status.present ∧ m "sY121" = some Status.absent ∧
         m "sY1192" = some Status.absent ∧ m "sY153" = some Status.present then
        { complete := true, subtype := "P5/proximal_P1",
          details := [("TESE_prognosis", .s "virtually_impossible")] }
      else if has_sY1192 then
        { complete := false, subtype := "partial",
          details := [("sY1192", .s "present"), ("TESE_prognosis", .s "possible")] }
      else
        { complete := false, subtype := "atypical", details := [] }
    let sY1224_detail : String :=
      match m "sY1224" with
      | some Status.present => "present"
      | some Status.absent => "absent"
      | none => "not_tested"
    { base with details := base.details ++ [("sY1224", .s sY1224_detail)] }
  else if region = "AZFc" then
    match m "sY160" with
    | none =>
        { complete := false, subtype := "unknown_terminal_status", details := [] }
    | some Status.present =>
        { complete := true, subtype := "b2/b4",
          details := [("terminal", .b false),
                      ("TESE_prognosis", .s "approximately_50_percent")] }
    | some Status.absent =>
        { complete := true, subtype := "terminal",
          details := [("terminal", .b true), ("karyotype_recommended", .b true)] }
  else
    { complete := false, subtype := "unknown", details := [] }

/-- `check_azfbc_deletion`: combined AZFbc deletion; all four of sY127, sY134,
sY254, sY255 must be tested and absent, then sY116/sY160 refine the label. -/
def check_azfbc_deletion (m : Panel) : Bool × String :=
  let required_absent : List String := ["sY127", "sY134", "sY254", "sY255"]
  if required_absent.all (fun marker => decide (m marker = some Status.absent)) then
    let st :=
      match m "sY116" with
      | some Status.absent => ("P5/distal_P1", "virtually_impossible")
      | some Status.present => ("P4/distal_P1", "may_be_positive")
      | none => ("undetermined_P4_P5", "unknown")
    let terminal : String :=
      if m "sY160" = some Status.absent then "_TERMINAL" else ""
    (true, "COMPLETE_AZFBC_DELETION_" ++ st.1 ++ terminal ++ " (TESE: " ++ st.2 ++ ")")
  else
    (false, "")

/-- `check_grgr_deletion`: gr/gr partial AZFc deletion. -/
def check_grgr_deletion (m : Panel) : Bool :=
  decide (m "sY1291" = some Status.absent ∧ m "sY1191" = some Status.present)

/-- The `y_markers_absent` generator of line 290: every basic marker that IS in
the panel has status absent (untested markers are skipped). -/
def xx_male_y_markers_absent (m : Panel) : Bool :=
  ["sY84", "sY86", "sY127", "sY134", "sY254", "sY255"].all fun marker =>
    match m marker with
    | none => true
    | some s => decide (s = Status.absent)

/-- The methodological-error test of lines 304-305: both sY254 and sY255 in the
panel with differing statuses. -/
def discordant_sY254_sY255 (m : Panel) : Bool :=
  match m "sY254", m "sY255" with
  | some a, some b => decide (a ≠ b)
  | _, _ => false

/-- The `missing_expected` accumulation of lines 360-363: expected-present
markers that are tested but not present. -/
def missing_expected (m : Panel) : List String :=
  EXPECTED_PRESENT_MARKERS.filter fun marker =>
    match m marker with
    | some status => decide (status ≠ Status.present)
    | none => false

/-- `classify_y_chromosome_state`: the main classification function.  The
local Python variables (`control_valid`/`control_msg`, `azfa_deleted`,
`azfb_deleted`, `azfc_deleted`, `ext_result`) are inlined: each names the
result of a pure call, repeated verbatim here.  Returns `none` exactly where
the Python code would raise a `KeyError` on
`ext_result['details']['TESE_prognosis']`. -/
def classify_y_chromosome_state (m : Panel) : Option String :=
  if (check_control_markers m).1 = false then some (check_control_markers m).2
  else if m "sY14" = some Status.absent ∧ zfxy_lookup m = some Status.present ∧
          xx_male_y_markers_absent m then
    some "46,XX_MALE_OR_COMPLETE_Y_CHROMOSOME_ABSENCE"
  else if discordant_sY254_sY255 m then
    some "METHODOLOGICAL_ERROR: sY254 and sY255 results discordant (both should have same status)"
  else if check_basic_deletion m "AZFa" ∧ check_basic_deletion m "AZFb" ∧
          check_basic_deletion m "AZFc" then
    if m "sY14" = some Status.absent then
      some "AZFABC_DELETION_WITH_46,XX_MALE_OR_Y_CHROMOSOME_ABSENCE"
    else
      some "COMPLETE_AZFABC_DELETION"
  else if check_basic_deletion m "AZFb" ∧ check_basic_deletion m "AZFc" ∧
          ¬ check_basic_deletion m "AZFa" ∧ (check_azfbc_deletion m).1 then
    some (check_azfbc_deletion m).2
  else if check_basic_deletion m "AZFa" ∧ ¬ check_basic_deletion m "AZFb" ∧
          ¬ check_basic_deletion m "AZFc" then
    if (check_extension_markers m "AZFa").complete then
      some "COMPLETE_AZFA_DELETION (TESE: virtually_impossible)"
    else
      some ("PARTIAL_OR_ATYPICAL_AZFA_DELETION (" ++
            (check_extension_markers m "AZFa").subtype ++ ")")
  else if check_basic_deletion m "AZFb" ∧ ¬ check_basic_deletion m "AZFa" ∧
          ¬ check_basic_deletion m "AZFc" then
    if (check_extension_markers m "AZFb").subtype = "P5/proximal_P1" then
      (alookup (check_extension_markers m "AZFb").details "TESE_prognosis").map
        fun v => "COMPLETE_AZFB_DELETION_P5/PROXIMAL_P1 (TESE: " ++ pyValStr v ++ ")"
    else if (check_extension_markers m "AZFb").subtype = "partial" then
      (alookup (check_extension_markers m "AZFb").details "TESE_prognosis").map
        fun v => "PARTIAL_AZFB_DELETION (sY1192 present, TESE: " ++ pyValStr v ++ ")"
    else
      some "AZFB_DELETION_ATYPICAL_PATTERN"
  else if check_basic_deletion m "AZFc" ∧ ¬ check_basic_deletion m "AZFa" ∧
          ¬ check_basic_deletion m "AZFb" then
    if (check_extension_markers m "AZFc").subtype = "b2/b4" then
      (alookup (check_extension_markers m "AZFc").details "TESE_prognosis").map
        fun v => "COMPLETE_AZFC_DELETION_B2/B4 (TESE: " ++ pyValStr v ++ ")"
    else if (check_extension_markers m "AZFc").subtype = "terminal" then
      some "TERMINAL_AZFC_DELETION (karyotype analysis recommended)"
    else
      some "AZFC_DELETION_UNDETERMINED_TYPE (sY160 not tested)"
  else if check_grgr_deletion m then
    if ¬ (check_basic_deletion m "AZFa" ∨ check_basic_deletion m "AZFb" ∨
          check_basic_deletion m "AZFc") then
      some "PARTIAL_AZFC_GR/GR_DELETION (population-specific risk factor)"
    else
      some "MULTIPLE_DELETIONS_INCLUDING_GR/GR"
  else if ¬ (check_basic_deletion m "AZFa" ∨ check_basic_deletion m "AZFb" ∨
             check_basic_deletion m "AZFc") then
      if missing_expected m ≠ [] then
        some ("INCONSISTENT_DATA: Expected present markers are absent: " ++
              String.intercalate ", " (missing_expected m))
      else
        some "NO_DELETION_DETECTED"
    else
      some "UNCLASSIFIED_DELETION_PATTERN (manual review required)"

/-- Does the pattern occur at the head of the text? (helper for substring
containment of classification labels). -/
def matchesHere : List Char → List Char → Bool
  | [], _ => true
  | _ :: _, [] => false
  | c :: pr, d :: lr => decide (c = d) && matchesHere pr lr

/-- Does the pattern occur anywhere in the text? -/
def containsPat (pat : List Char) : List Char → Bool
  | [] => matchesHere pat []
  | d :: lr => matchesHere pat (d :: lr) || containsPat pat lr

/-- Substring containment on strings (Python `pat in s`). -/
def strContains (s pat : String) : Bool :=
  containsPat pat.data s.data

/-- The concrete panel of spec Scenario 1. -/
def scenario1_panel : Panel :=
  panelOf [("ZFX/ZFY", .present), ("sY14", .present), ("sY84", .absent),
           ("sY86", .absent), ("sY82", .present), ("sY1064", .absent),
           ("sY88", .present), ("sY1065", .absent)]

/-- The panel of spec Scenario 2 exactly as claimed: sY160 present and every
basic marker (including sY254 and sY255) present. -/
def scenario2_panel_as_stated : Panel :=
  panelOf [("ZFX/ZFY", .present), ("sY14", .present), ("sY160", .present),
           ("sY84", .present), ("sY86", .present), ("sY127", .present),
           ("sY134", .present), ("sY254", .present), ("sY255", .present)]

/-- Scenario 2 with the AZFc basic markers sY254 and sY255 absent instead of
present (the reading under which an AZFc deletion is actually on the panel). -/
def scenario2_panel_azfc_deleted : Panel :=
  panelOf [("ZFX/ZFY", .present), ("sY14", .present), ("sY160", .present),
           ("sY84", .present), ("sY86", .present), ("sY127", .present),
           ("sY134", .present), ("sY254", .absent), ("sY255", .absent)]

/-- A panel with discordant sY254/sY255 and no control markers at all. -/
def discordant_no_controls_panel : Panel :=
  panelOf [("sY254", .absent), ("sY255", .present)]

/-- The panel of spec Scenario 4: the empty panel. -/
def empty_panel : Panel := panelOf []

/-- The concrete panel used in the 46,XX-male vacuity scenario: only the two
control markers, sY14 absent. -/
def xx_vacuous_panel : Panel :=
  panelOf [("ZFX/ZFY", .present), ("sY14", .absent)]

/-- Claim C6: on the Scenario 1 panel (ZFX/ZFY present, sY14 present, sY84
absent, sY86 absent, sY82 present, sY1064 absent, sY88 present, sY1065
absent), the classifier returns exactly
"COMPLETE_AZFA_DELETION (TESE: virtually_impossible)". -/
theorem scenario1_complete_azfa :
    classify_y_chromosome_state scenario1_panel =
      some "COMPLETE_AZFA_DELETION (TESE: virtually_impossible)" := by
  decide

/-- Claim C9: on the panel containing exactly ZFX/ZFY ↦ present and
sY14 ↦ absent (none of the six basic markers tested), the classifier returns
"46,XX_MALE_OR_COMPLETE_Y_CHROMOSOME_ABSENCE": the "every tested basic marker
is absent" condition holds vacuously. -/
theorem xx_male_vacuous :
    classify_y_chromosome_state xx_vacuous_panel =
      some "46,XX_MALE_OR_COMPLETE_Y_CHROMOSOME_ABSENCE" := by
  decide

/-- Claim C3: any panel containing neither the key "ZFX/ZFY" nor the key
"ZFX/Y" is classified with the control-marker-not-tested failure label,
whatever the other markers say. -/
theorem missing_control_label (m : Panel)
    (h1 : m "ZFX/ZFY" = none) (h2 : m "ZFX/Y" = none) :
    classify_y_chromosome_state m =
      some "CRITICAL: ZFX/ZFY control marker not tested - cannot validate results" := by
  have hz : zfxy_lookup m = none := by
    unfold zfxy_lookup
    rw [h1, h2]
  have hc : check_control_markers m =
      (false, "CRITICAL: ZFX/ZFY control marker not tested - cannot validate results") := by
    unfold check_control_markers
    rw [hz]
  unfold classify_y_chromosome_state
  rw [hc]
  rfl

/-- Witness for C3: the empty panel has neither alias key and is classified
with the control-marker-not-tested label. -/
theorem missing_control_label_witness :
    empty_panel "ZFX/ZFY" = none ∧ empty_panel "ZFX/Y" = none ∧
      classify_y_chromosome_state empty_panel =
        some "CRITICAL: ZFX/ZFY control marker not tested - cannot validate results" :=
  ⟨by decide, by decide,
   missing_control_label empty_panel (by decide) (by decide)⟩

/-- Counterexample to claim C5 as stated: on the Scenario 2 panel with every
basic marker present (as the claim literally lists them), the classifier
returns "NO_DELETION_DETECTED", which does not contain
"COMPLETE_AZFC_DELETION_B2/B4". -/
theorem scenario2_as_stated_cex :
    classify_y_chromosome_state scenario2_panel_as_stated =
        some "NO_DELETION_DETECTED" ∧
      strContains "NO_DELETION_DETECTED" "COMPLETE_AZFC_DELETION_B2/B4" = false := by
  constructor
  · decide
  · decide

/-- Claim C5 amended: with the AZFc basic markers sY254 and sY255 absent (and
ZFX/ZFY, sY14, sY160, sY84, sY86, sY127, sY134 present), the classifier
returns a label containing "COMPLETE_AZFC_DELETION_B2/B4" with TESE prognosis
approximately 50 percent. -/
theorem scenario2_amended :
    classify_y_chromosome_state scenario2_panel_azfc_deleted =
        some "COMPLETE_AZFC_DELETION_B2/B4 (TESE: approximately_50_percent)" ∧
      strContains "COMPLETE_AZFC_DELETION_B2/B4 (TESE: approximately_50_percent)"
        "COMPLETE_AZFC_DELETION_B2/B4" = true := by
  constructor
  · decide
  · decide

/-- Counterexample to claim C2 as stated: a panel with sY254 and sY255 both
tested and discordant but lacking the control markers is classified with the
control-validation failure label, not the methodological-error label. -/
theorem discordance_not_global_cex :
    discordant_no_controls_panel "sY254" = some Status.absent ∧
      discordant_no_controls_panel "sY255" = some Status.present ∧
      classify_y_chromosome_state discordant_no_controls_panel ≠
        some "METHODOLOGICAL_ERROR: sY254 and sY255 results discordant (both should have same status)" := by
  refine ⟨by decide, by decide, ?_⟩
  decide

/-- Claim C4: for every panel and every region listed in `BASIC_MARKERS`
(AZFa, AZFb, AZFc with their two basic markers), `check_basic_deletion` is
true iff both basic markers are tested and absent; in particular it is false
whenever either marker is missing from the panel. -/
theorem check_basic_deletion_spec (m : Panel) (r m1 m2 : String)
    (h : (r, [m1, m2]) ∈ BASIC_MARKERS) :
    (check_basic_deletion m r = true ↔
      (m m1 = some Status.absent ∧ m m2 = some Status.absent)) ∧
    ((m m1 = none ∨ m m2 = none) → check_basic_deletion m r = false) := by
  have main : ∀ x y : String,
      check_basic_deletion m r =
        ([x, y].all fun marker => decide (m marker = some Status.absent)) →
      ((check_basic_deletion m r = true ↔
        (m x = some Status.absent ∧ m y = some Status.absent)) ∧
      ((m x = none ∨ m y = none) → check_basic_deletion m r = false)) := by
    intro x y hx
    rw [hx]
    constructor
    · simp [List.all]
    · intro hn
      rcases hn with hn | hn <;> simp [List.all, hn]
  simp only [BASIC_MARKERS, List.mem_cons, List.not_mem_nil, or_false,
    Prod.mk.injEq, List.cons.injEq, and_true] at h
  rcases h with ⟨rfl, rfl, rfl⟩ | ⟨rfl, rfl, rfl⟩ | ⟨rfl, rfl, rfl⟩ <;>
    exact main _ _ rfl

/-- Witness for C4: AZFa with the panel {sY84 ↦ absent} — sY86 untested, so
the region is not deleted. -/
theorem check_basic_deletion_spec_witness :
    (("AZFa", ["sY84", "sY86"]) ∈ BASIC_MARKERS) ∧
      ((check_basic_deletion (panelOf [("sY84", .absent)]) "AZFa" = true ↔
        (panelOf [("sY84", .absent)] "sY84" = some Status.absent ∧
         panelOf [("sY84", .absent)] "sY86" = some Status.absent)) ∧
      ((panelOf [("sY84", .absent)] "sY84" = none ∨
        panelOf [("sY84", .absent)] "sY86" = none) →
        check_basic_deletion (panelOf [("sY84", .absent)]) "AZFa" = false)) :=
  ⟨by decide,
   check_basic_deletion_spec (panelOf [("sY84", .absent)]) "AZFa" "sY84" "sY86"
     (by decide)⟩

/-- Claim C8: the four markers `check_azfbc_deletion` requires absent are
exactly the AZFb and AZFc basic markers, so whenever the basic check says AZFb
and AZFc are both deleted, the combined AZFbc check confirms; the classifier's
AZFbc branch therefore cannot fall through when reached. -/
theorem azfbc_confirms_when_basic_deleted (m : Panel)
    (hb : check_basic_deletion m "AZFb" = true)
    (hc : check_basic_deletion m "AZFc" = true) :
    (check_azfbc_deletion m).1 = true := by
  have hb2 : (decide (m "sY127" = some Status.absent) &&
      (decide (m "sY134" = some Status.absent) && true)) = true := hb
  have hc2 : (decide (m "sY254" = some Status.absent) &&
      (decide (m "sY255" = some Status.absent) && true)) = true := hc
  simp only [Bool.and_true, Bool.and_eq_true, decide_eq_true_eq] at hb2 hc2
  simp [check_azfbc_deletion, List.all, hb2.1, hb2.2, hc2.1, hc2.2]

/-- Witness for C8: a panel with exactly the four markers sY127, sY134, sY254,
sY255 absent. -/
theorem azfbc_confirms_when_basic_deleted_witness :
    check_basic_deletion
        (panelOf [("sY127", .absent), ("sY134", .absent),
                  ("sY254", .absent), ("sY255", .absent)]) "AZFb" = true ∧
      check_basic_deletion
        (panelOf [("sY127", .absent), ("sY134", .absent),
                  ("sY254", .absent), ("sY255", .absent)]) "AZFc" = true ∧
      (check_azfbc_deletion
        (panelOf [("sY127", .absent), ("sY134", .absent),
                  ("sY254", .absent), ("sY255", .absent)])).1 = true :=
  ⟨by decide, by decide,
   azfbc_confirms_when_basic_deleted _ (by decide) (by decide)⟩

/-- Claim C10: the classifier is a pure function of the panel contents — two
panels with identical entries (in particular, the same panel classified twice)
receive identical labels; the embedding is side-effect free by construction. -/
theorem classify_extensional (m1 m2 : Panel) (h : ∀ k, m1 k = m2 k) :
    classify_y_chromosome_state m1 = classify_y_chromosome_state m2 := by
  have hm : m1 = m2 := funext h
  rw [hm]

/-- Witness for C10: classifying the Scenario 1 panel twice gives the same
label. -/
theorem classify_extensional_witness :
    classify_y_chromosome_state scenario1_panel =
      classify_y_chromosome_state scenario1_panel :=
  classify_extensional scenario1_panel scenario1_panel (fun _ => rfl)

/-- Claim C2 amended: for every panel that passes control validation and has
sY254 and sY255 both tested with differing statuses, the classifier returns
the methodological-error label, whatever the other markers say. -/
theorem discordance_after_controls (m : Panel) (a b : Status)
    (hctl : (check_control_markers m).1 = true)
    (h254 : m "sY254" = some a) (h255 : m "sY255" = some b) (hab : a ≠ b) :
    classify_y_chromosome_state m =
      some "METHODOLOGICAL_ERROR: sY254 and sY255 results discordant (both should have same status)" := by
  have hdis : discordant_sY254_sY255 m = true := by
    simp [discordant_sY254_sY255, h254, h255, hab]
  have hxx : xx_male_y_markers_absent m = false := by
    cases a <;> cases b
    · exact absurd rfl hab
    · simp [xx_male_y_markers_absent, List.all, h254]
    · simp [xx_male_y_markers_absent, List.all, h255]
    · exact absurd rfl hab
  simp [classify_y_chromosome_state, hctl, hxx, hdis]

/-- A panel with valid controls and discordant sY254/sY255. -/
def discordant_with_controls_panel : Panel :=
  panelOf [("ZFX/ZFY", .present), ("sY14", .present),
           ("sY254", .absent), ("sY255", .present)]

/-- Witness for the amended C2: valid controls plus sY254 absent, sY255
present yields the methodological-error label. -/
theorem discordance_after_controls_witness :
    (check_control_markers discordant_with_controls_panel).1 = true ∧
      discordant_with_controls_panel "sY254" = some Status.absent ∧
      discordant_with_controls_panel "sY255" = some Status.present ∧
      classify_y_chromosome_state discordant_with_controls_panel =
        some "METHODOLOGICAL_ERROR: sY254 and sY255 results discordant (both should have same status)" :=
  ⟨by decide, by decide, by decide,
   discordance_after_controls discordant_with_controls_panel Status.absent
     Status.present (by decide) (by decide) (by decide) (by decide)⟩

/-- When the AZFb extension analysis reports subtype "P5/proximal_P1", its
details dictionary carries the TESE prognosis "virtually_impossible". -/
theorem azfb_P5_lookup (m : Panel)
    (h : (check_extension_markers m "AZFb").subtype = "P5/proximal_P1") :
    alookup (check_extension_markers m "AZFb").details "TESE_prognosis" =
      some (PyVal.s "virtually_impossible") := by
  unfold check_extension_markers at h ⊢
  rw [if_neg (by decide : ¬ ("AZFb" : String) = "AZFa"),
      if_pos (rfl : ("AZFb" : String) = "AZFb")] at h ⊢
  dsimp only at h ⊢
  by_cases h1 : (m "sY105" = some Status.present ∧ m "sY121" = some Status.absent ∧
      m "sY1192" = some Status.absent ∧ m "sY153" = some Status.present)
  · rw [if_pos h1]
    rfl
  · rw [if_neg h1] at h ⊢
    by_cases h2 : m "sY1192" = some Status.present
    · rw [if_pos h2] at h
      exact absurd h (by decide)
    · rw [if_neg h2] at h
      exact absurd h (by decide)

/-- When the AZFb extension analysis reports subtype "partial", its details
dictionary carries the TESE prognosis "possible". -/
theorem azfb_partial_lookup (m : Panel)
    (h : (check_extension_markers m "AZFb").subtype = "partial") :
    alookup (check_extension_markers m "AZFb").details "TESE_prognosis" =
      some (PyVal.s "possible") := by
  unfold check_extension_markers at h ⊢
  rw [if_neg (by decide : ¬ ("AZFb" : String) = "AZFa"),
      if_pos (rfl : ("AZFb" : String) = "AZFb")] at h ⊢
  dsimp only at h ⊢
  by_cases h1 : (m "sY105" = some Status.present ∧ m "sY121" = some Status.absent ∧
      m "sY1192" = some Status.absent ∧ m "sY153" = some Status.present)
  · rw [if_pos h1] at h
    exact absurd h (by decide)
  · rw [if_neg h1] at h ⊢
    by_cases h2 : m "sY1192" = some Status.present
    · rw [if_pos h2]
      rfl
    · rw [if_neg h2] at h
      exact absurd h (by decide)

/-- When the AZFc extension analysis reports subtype "b2/b4", its details
dictionary carries the TESE prognosis "approximately_50_percent". -/
theorem azfc_b2b4_lookup (m : Panel)
    (h : (check_extension_markers m "AZFc").subtype = "b2/b4") :
    alookup (check_extension_markers m "AZFc").details "TESE_prognosis" =
      some (PyVal.s "approximately_50_percent") := by
  unfold check_extension_markers at h ⊢
  rw [if_neg (by decide : ¬ ("AZFc" : String) = "AZFa"),
      if_neg (by decide : ¬ ("AZFc" : String) = "AZFb"),
      if_pos (rfl : ("AZFc" : String) = "AZFc")] at h ⊢
  rcases h160 : m "sY160" with _ | s
  · rw [h160] at h
    exact absurd h (by decide)
  · cases s
    · rfl
    · rw [h160] at h
      exact absurd h (by decide)

/-- Claim C1: totality of the engine — on every panel the classifier returns
exactly one label and in particular never reaches a failing dictionary access
(`none` in this embedding models a Python `KeyError` on
`ext_result['details']['TESE_prognosis']`). -/
theorem classify_total (m : Panel) :
    (classify_y_chromosome_state m).isSome = true := by
  have hite : ∀ (c : Prop) [Decidable c] (x y : Option String),
      x.isSome = true → y.isSome = true → (ite c x y).isSome = true := by
    intro c inst x y hx hy
    by_cases h : c
    · rwa [if_pos h]
    · rwa [if_neg h]
  unfold classify_y_chromosome_state
  refine hite _ _ _ rfl ?_
  refine hite _ _ _ rfl ?_
  refine hite _ _ _ rfl ?_
  refine hite _ _ _ (hite _ _ _ rfl rfl) ?_
  refine hite _ _ _ rfl ?_
  refine hite _ _ _ (hite _ _ _ rfl rfl) ?_
  by_cases hb : (check_basic_deletion m "AZFb" = true ∧
      ¬ check_basic_deletion m "AZFa" = true ∧ ¬ check_basic_deletion m "AZFc" = true)
  · rw [if_pos hb]
    by_cases hsub : (check_extension_markers m "AZFb").subtype = "P5/proximal_P1"
    · rw [if_pos hsub, azfb_P5_lookup m hsub]
      rfl
    · rw [if_neg hsub]
      by_cases hsub2 : (check_extension_markers m "AZFb").subtype = "partial"
      · rw [if_pos hsub2, azfb_partial_lookup m hsub2]
        rfl
      · rw [if_neg hsub2]
        rfl
  · rw [if_neg hb]
    by_cases hc : (check_basic_deletion m "AZFc" = true ∧
        ¬ check_basic_deletion m "AZFa" = true ∧ ¬ check_basic_deletion m "AZFb" = true)
    · rw [if_pos hc]
      by_cases hsub : (check_extension_markers m "AZFc").subtype = "b2/b4"
      · rw [if_pos hsub, azfc_b2b4_lookup m hsub]
        rfl
      · rw [if_neg hsub]
        refine hite _ _ _ rfl rfl
    · rw [if_neg hc]
      refine hite _ _ _ (hite _ _ _ rfl rfl) ?_
      refine hite _ _ _ (hite _ _ _ rfl rfl) rfl

/-- Rename the "ZFX/ZFY" key of a panel to its alias spelling "ZFX/Y",
leaving every other entry unchanged. -/
def rename_zfxy_alias (P : Panel) : Panel :=
  fun k =>
    if k = "ZFX/Y" then P "ZFX/ZFY"
    else if k = "ZFX/ZFY" then none
    else P k

/-- Claim C7: alias equivalence — for a panel with "ZFX/ZFY" present and no
"ZFX/Y" key, renaming that key to "ZFX/Y" leaves the classification
unchanged. -/
theorem alias_equivalence (P : Panel)
    (hz : P "ZFX/ZFY" = some Status.present) (ha : P "ZFX/Y" = none) :
    classify_y_chromosome_state (rename_zfxy_alias P) =
      classify_y_chromosome_state P := by
  have e14 : rename_zfxy_alias P "sY14" = P "sY14" := rfl
  have e84 : rename_zfxy_alias P "sY84" = P "sY84" := rfl
  have e86 : rename_zfxy_alias P "sY86" = P "sY86" := rfl
  have e127 : rename_zfxy_alias P "sY127" = P "sY127" := rfl
  have e134 : rename_zfxy_alias P "sY134" = P "sY134" := rfl
  have e254 : rename_zfxy_alias P "sY254" = P "sY254" := rfl
  have e255 : rename_zfxy_alias P "sY255" = P "sY255" := rfl
  have e82 : rename_zfxy_alias P "sY82" = P "sY82" := rfl
  have e1064 : rename_zfxy_alias P "sY1064" = P "sY1064" := rfl
  have e1065 : rename_zfxy_alias P "sY1065" = P "sY1065" := rfl
  have e1182 : rename_zfxy_alias P "sY1182" = P "sY1182" := rfl
  have e88 : rename_zfxy_alias P "sY88" = P "sY88" := rfl
  have e105 : rename_zfxy_alias P "sY105" = P "sY105" := rfl
  have e121 : rename_zfxy_alias P "sY121" = P "sY121" := rfl
  have e1192 : rename_zfxy_alias P "sY1192" = P "sY1192" := rfl
  have e153 : rename_zfxy_alias P "sY153" = P "sY153" := rfl
  have e1224 : rename_zfxy_alias P "sY1224" = P "sY1224" := rfl
  have e160 : rename_zfxy_alias P "sY160" = P "sY160" := rfl
  have e116 : rename_zfxy_alias P "sY116" = P "sY116" := rfl
  have e1291 : rename_zfxy_alias P "sY1291" = P "sY1291" := rfl
  have e1191 : rename_zfxy_alias P "sY1191" = P "sY1191" := rfl
  have hzfQ : zfxy_lookup (rename_zfxy_alias P) = some Status.present := by
    have step : zfxy_lookup (rename_zfxy_alias P) = P "ZFX/ZFY" := rfl
    rw [step, hz]
  have hzfP : zfxy_lookup P = some Status.present := by
    unfold zfxy_lookup
    rw [hz]
  have hzf : zfxy_lookup (rename_zfxy_alias P) = zfxy_lookup P := by
    rw [hzfQ, hzfP]
  have hctl : check_control_markers (rename_zfxy_alias P) =
      check_control_markers P := by
    unfold check_control_markers
    rw [hzf, e14]
  have hxx : xx_male_y_markers_absent (rename_zfxy_alias P) =
      xx_male_y_markers_absent P := by
    unfold xx_male_y_markers_absent
    simp only [List.all_cons, List.all_nil]
    rw [e84, e86, e127, e134, e254, e255]
  have hdis : discordant_sY254_sY255 (rename_zfxy_alias P) =
      discordant_sY254_sY255 P := by
    unfold discordant_sY254_sY255
    rw [e254, e255]
  have hbA : check_basic_deletion (rename_zfxy_alias P) "AZFa" =
      check_basic_deletion P "AZFa" := by
    have q1 : check_basic_deletion (rename_zfxy_alias P) "AZFa" =
        (decide (rename_zfxy_alias P "sY84" = some Status.absent) &&
         (decide (rename_zfxy_alias P "sY86" = some Status.absent) && true)) := rfl
    have p1 : check_basic_deletion P "AZFa" =
        (decide (P "sY84" = some Status.absent) &&
         (decide (P "sY86" = some Status.absent) && true)) := rfl
    rw [q1, p1, e84, e86]
  have hbB : check_basic_deletion (rename_zfxy_alias P) "AZFb" =
      check_basic_deletion P "AZFb" := by
    have q1 : check_basic_deletion (rename_zfxy_alias P) "AZFb" =
        (decide (rename_zfxy_alias P "sY127" = some Status.absent) &&
         (decide (rename_zfxy_alias P "sY134" = some Status.absent) && true)) := rfl
    have p1 : check_basic_deletion P "AZFb" =
        (decide (P "sY127" = some Status.absent) &&
         (decide (P "sY134" = some Status.absent) && true)) := rfl
    rw [q1, p1, e127, e134]
  have hbC : check_basic_deletion (rename_zfxy_alias P) "AZFc" =
      check_basic_deletion P "AZFc" := by
    have q1 : check_basic_deletion (rename_zfxy_alias P) "AZFc" =
        (decide (rename_zfxy_alias P "sY254" = some Status.absent) &&
         (decide (rename_zfxy_alias P "sY255" = some Status.absent) && true)) := rfl
    have p1 : check_basic_deletion P "AZFc" =
        (decide (P "sY254" = some Status.absent) &&
         (decide (P "sY255" = some Status.absent) && true)) := rfl
    rw [q1, p1, e254, e255]
  have habc : check_azfbc_deletion (rename_zfxy_alias P) =
      check_azfbc_deletion P := by
    unfold check_azfbc_deletion
    dsimp only
    simp only [List.all_cons, List.all_nil]
    simp only [e127, e134, e254, e255, e116, e160]
  have hext : ∀ r, check_extension_markers (rename_zfxy_alias P) r =
      check_extension_markers P r := by
    intro r
    unfold check_extension_markers
    simp only [e82, e1064, e1065, e1182, e88, e105, e121, e1192, e153, e1224, e160]
  have hgr : check_grgr_deletion (rename_zfxy_alias P) =
      check_grgr_deletion P := by
    unfold check_grgr_deletion
    rw [e1291, e1191]
  have hmiss : missing_expected (rename_zfxy_alias P) = missing_expected P := by
    have z1 : rename_zfxy_alias P "ZFX/ZFY" = none := rfl
    unfold missing_expected EXPECTED_PRESENT_MARKERS
    simp only [List.filter_cons, List.filter_nil]
    simp only [e14, e82, e88, e105, e153, e160, e1191, hz, z1]
    rfl
  unfold classify_y_chromosome_state
  simp only [hctl, e14, hzf, hxx, hdis, hbA, hbB, hbC, habc,
    hext "AZFa", hext "AZFb", hext "AZFc", hgr, hmiss]

/-- Witness for C7: on the panel {ZFX/ZFY ↦ present, sY14 ↦ absent} (no
ZFX/Y key), renaming ZFX/ZFY to ZFX/Y gives the same classification. -/
theorem alias_equivalence_witness :
    xx_vacuous_panel "ZFX/ZFY" = some Status.present ∧
      xx_vacuous_panel "ZFX/Y" = none ∧
      classify_y_chromosome_state (rename_zfxy_alias xx_vacuous_panel) =
        classify_y_chromosome_state xx_vacuous_panel :=
  ⟨by decide, by decide,
   alias_equivalence xx_vacuous_panel (by decide) (by decide)⟩

end YDel
